import Mathlib

/-!
Verification of the capy-timer session-timer engine.

The engine lives in the useTimer hook: a session record advanced by five
operations (startTimer, pauseTimer, resetTimer, skipPhase, tick) driven by a
once-per-second clock.  All numeric fields are JavaScript numbers that only
ever hold non-negative integers along the code paths embedded here, so they
are modelled as Nat; Math.floor(x / 30) on such values is Nat division.

One modelling note on tick: in the source, when the decremented remaining
time reaches 0 the tick handler returns the *previous* state unchanged and
defers moveToNextPhase through setTimeout(, 0); that continuation runs before
the next 1000 ms interval fire and before any further command can observably
interleave at one-second granularity.  The embedded tick therefore performs
the deferred moveToNextPhase call atomically in that branch.  Faithfully to
the source, the transition then reads the stale, pre-increment timeElapsed of
the previous state (the returned prev), not timeElapsed + 1.
-/

/-- Phases of a session, from TimerPhase in the source
('prep' | 'focus' | 'break' | 'completed'); 'break' is rendered brk. -/
inductive TimerPhase
  | prep
  | focus
  | brk
  | completed
deriving DecidableEq

/-- Run states, from TimerState in the source
('idle' | 'running' | 'paused' | 'completed'). -/
inductive TimerState
  | idle
  | running
  | paused
  | completed
deriving DecidableEq

/-- Configuration record, from the TimerSettings interface.  Durations are in
seconds.  All values reaching the engine in the app are non-negative
integers, so Nat is used (a negative breakDuration is not representable in
this embedding). -/
structure TimerSettings where
  focusDuration : Nat
  breakDuration : Nat
  loops : Nat
  hasPrep : Bool
  countUp : Bool
deriving DecidableEq

/-- Session record, from the TimerSession interface. -/
structure TimerSession where
  phase : TimerPhase
  state : TimerState
  currentLoop : Nat
  totalLoops : Nat
  timeElapsed : Nat
  timeRemaining : Nat
  totalSessionTime : Nat
  coinsEarned : Nat
  completedFocusTime : Nat
deriving DecidableEq

/-- PREP_DURATION = 5 * 60 from the source. -/
def PREP_DURATION : Nat := 5 * 60

/-- getCurrentPhaseDuration from the source: duration assigned to a phase. -/
def getCurrentPhaseDuration (settings : TimerSettings) : TimerPhase → Nat
  | .prep => PREP_DURATION
  | .focus => settings.focusDuration
  | .brk => settings.breakDuration
  | .completed => 0

/-- The initial session built by useTimer's useState initialiser: Idle, first
phase prep when hasPrep else focus, counters zeroed. -/
def initialSession (settings : TimerSettings) : TimerSession :=
  { phase := if settings.hasPrep then .prep else .focus
    state := .idle
    currentLoop := 1
    totalLoops := settings.loops
    timeElapsed := 0
    timeRemaining := if settings.hasPrep then PREP_DURATION else settings.focusDuration
    totalSessionTime := if settings.hasPrep then PREP_DURATION else settings.focusDuration
    coinsEarned := 0
    completedFocusTime := 0 }

/-- moveToNextPhase from the source.  Coin logic: leaving focus un-skipped
awards floor(timeElapsed / 30) coins and credits timeElapsed to
completedFocusTime; leaving focus skipped credits the time but awards no
coins.  Transition logic: prep goes to focus; focus goes to brk when
breakDuration > 0, otherwise to the next focus loop or to completed; brk goes
to the next focus loop or to completed; the fallback case yields completed.
Note the source stores nextLoop into currentLoop in the completed branches as
well, so currentLoop becomes loops + 1 on completion. -/
def moveToNextPhase (settings : TimerSettings) (isSkipped : Bool) (prev : TimerSession) : TimerSession :=
  let coinsToAdd : Nat :=
    if prev.phase = .focus ∧ isSkipped = false then prev.timeElapsed / 30 else 0
  let newCompletedFocusTime : Nat :=
    if prev.phase = .focus then prev.completedFocusTime + prev.timeElapsed
    else prev.completedFocusTime
  let next : TimerPhase × Nat :=
    match prev.phase with
    | .prep => (.focus, prev.currentLoop)
    | .focus =>
        if settings.breakDuration > 0 then (.brk, prev.currentLoop)
        else if prev.currentLoop + 1 ≤ settings.loops then (.focus, prev.currentLoop + 1)
        else (.completed, prev.currentLoop + 1)
    | .brk =>
        if prev.currentLoop + 1 ≤ settings.loops then (.focus, prev.currentLoop + 1)
        else (.completed, prev.currentLoop + 1)
    | .completed => (.completed, prev.currentLoop)
  let phaseDuration := getCurrentPhaseDuration settings next.1
  { prev with
    phase := next.1
    state := if next.1 = .completed then .completed else prev.state
    currentLoop := next.2
    timeElapsed := 0
    timeRemaining := phaseDuration
    totalSessionTime := phaseDuration
    coinsEarned := prev.coinsEarned + coinsToAdd
    completedFocusTime := newCompletedFocusTime }

/-- tick from the source, including its deferred moveToNextPhase
continuation (see the file comment).  The source computes
newTimeRemaining = timeRemaining - 1 and transitions when it is ≤ 0, which
for the non-negative values modelled here is timeRemaining ≤ 1. -/
def tick (settings : TimerSettings) (prev : TimerSession) : TimerSession :=
  if prev.state ≠ .running ∨ prev.phase = .completed then prev
  else if prev.timeRemaining ≤ 1 then moveToNextPhase settings false prev
  else { prev with
         timeElapsed := prev.timeElapsed + 1
         timeRemaining := prev.timeRemaining - 1 }

/-- startTimer from the source: unconditionally sets state to running. -/
def startTimer (prev : TimerSession) : TimerSession :=
  { prev with state := .running }

/-- pauseTimer from the source: unconditionally sets state to paused. -/
def pauseTimer (prev : TimerSession) : TimerSession :=
  { prev with state := .paused }

/-- resetTimer from the source: replaces the session with the same literal
record the useState initialiser builds. -/
def resetTimer (settings : TimerSettings) : TimerSession :=
  { phase := if settings.hasPrep then .prep else .focus
    state := .idle
    currentLoop := 1
    totalLoops := settings.loops
    timeElapsed := 0
    timeRemaining := if settings.hasPrep then PREP_DURATION else settings.focusDuration
    totalSessionTime := if settings.hasPrep then PREP_DURATION else settings.focusDuration
    coinsEarned := 0
    completedFocusTime := 0 }

/-- skipPhase from the source: moveToNextPhase with isSkipped = true,
called unconditionally (no run-state guard in the hook). -/
def skipPhase (settings : TimerSettings) (prev : TimerSession) : TimerSession :=
  moveToNextPhase settings true prev

/-- padStart(2, the zero character) from the source formatTime: prepend
zeros until the string has length at least 2. -/
def padStart2 (s : String) : String :=
  String.mk (List.replicate (2 - s.length) '0') ++ s

/-- formatTime from the source: Math.floor(seconds / 60) and seconds % 60,
each rendered with toString and padStart(2, the zero character), joined by
a colon. -/
def formatTime (seconds : Nat) : String :=
  padStart2 (toString (seconds / 60)) ++ ":" ++ padStart2 (toString (seconds % 60))

/-- The five engine operations a caller can invoke on a session. -/
inductive TimerOp
  | start
  | pause
  | reset
  | skip
  | tick
deriving DecidableEq

/-- Apply one operation to a session. -/
def applyOp (settings : TimerSettings) (op : TimerOp) (s : TimerSession) : TimerSession :=
  match op with
  | .start => startTimer s
  | .pause => pauseTimer s
  | .reset => resetTimer settings
  | .skip => skipPhase settings s
  | .tick => tick settings s

/-- Run a list of operations left to right from a session. -/
def runOps (settings : TimerSettings) (ops : List TimerOp) (s : TimerSession) : TimerSession :=
  ops.foldl (fun t op => applyOp settings op t) s

/-- The configuration of spec Scenario A and B and of the repository's own
default test settings: 60 s focus, 30 s break, 2 loops, no prep. -/
def cfgA : TimerSettings :=
  { focusDuration := 60
    breakDuration := 30
    loops := 2
    hasPrep := false
    countUp := false }

/-- The configuration of spec Scenario E: 150 s focus, no break, 1 loop,
no prep. -/
def cfgE : TimerSettings :=
  { focusDuration := 150
    breakDuration := 0
    loops := 1
    hasPrep := false
    countUp := false }

/-- A minimal valid configuration used for concrete counterexamples:
30 s focus, no break, 1 loop, no prep. -/
def cfgMin : TimerSettings :=
  { focusDuration := 30
    breakDuration := 0
    loops := 1
    hasPrep := false
    countUp := false }

/-- A configuration with 31 s focus, no break, 1 loop, used to reach a
state with coinsEarned = 1. -/
def cfg31 : TimerSettings :=
  { focusDuration := 31
    breakDuration := 0
    loops := 1
    hasPrep := false
    countUp := false }

/-- An invalid configuration (focusDuration = 0 < 30). -/
def cfgBad : TimerSettings :=
  { focusDuration := 0
    breakDuration := 0
    loops := 1
    hasPrep := false
    countUp := false }

/-- Inductive time-partition invariant: elapsed plus remaining time equals the
duration of the current phase. -/
def TimeOk (settings : TimerSettings) (s : TimerSession) : Prop :=
  s.timeElapsed + s.timeRemaining = getCurrentPhaseDuration settings s.phase

/-- Inductive run-state invariant: a completed run state only occurs in the
completed phase.  (The converse is false: startTimer and pauseTimer move the
run state away from completed without touching the phase.) -/
def StateOk (s : TimerSession) : Prop :=
  s.state = .completed → s.phase = .completed

/-- Inductive loop invariant: currentLoop stays within loops while the phase
is not completed, and within loops + 1 always.  (The source writes the
incremented nextLoop into currentLoop in the completed branches too, so
currentLoop is loops + 1 once the session completes.) -/
def LoopOk (settings : TimerSettings) (s : TimerSession) : Prop :=
  (s.phase ≠ .completed → s.currentLoop ≤ settings.loops) ∧
    s.currentLoop ≤ settings.loops + 1

/-- Modelled from the spec: the configuration validity predicate that the
spec's ConfigurationError is meant to enforce at construction —
focusDuration ≥ 30, breakDuration ≥ 0 and loopCount in [1, 9].  In this Nat
embedding breakDuration ≥ 0 holds by type. -/
def specValidSettings (s : TimerSettings) : Prop :=
  30 ≤ s.focusDuration ∧ 1 ≤ s.loops ∧ s.loops ≤ 9

/-- Modelled from the claim: two-digit zero padding of a number — the decimal
string preceded by one zero when the number has a single decimal digit. -/
def pad2 (n : Nat) : String :=
  if n < 10 then "0" ++ Nat.repr n else Nat.repr n

/-! Basic unfolding lemmas for the operation interpreter. -/

theorem runOps_nil (settings : TimerSettings) (s : TimerSession) :
    runOps settings [] s = s := rfl

theorem runOps_cons (settings : TimerSettings) (op : TimerOp) (ops : List TimerOp)
    (s : TimerSession) :
    runOps settings (op :: ops) s = runOps settings ops (applyOp settings op s) := rfl

theorem runOps_invariant {P : TimerSession → Prop} {settings : TimerSettings}
    (hstep : ∀ s op, P s → P (applyOp settings op s)) :
    ∀ (ops : List TimerOp) (s : TimerSession), P s → P (runOps settings ops s) := by
  intro ops
  induction ops with
  | nil => exact fun s h => h
  | cons op rest ih => exact fun s h => ih _ (hstep s op h)

/-! Field lemmas for moveToNextPhase. -/

theorem moveToNextPhase_timeElapsed (settings : TimerSettings) (b : Bool) (s : TimerSession) :
    (moveToNextPhase settings b s).timeElapsed = 0 := rfl

theorem moveToNextPhase_timeRemaining (settings : TimerSettings) (b : Bool) (s : TimerSession) :
    (moveToNextPhase settings b s).timeRemaining =
      getCurrentPhaseDuration settings (moveToNextPhase settings b s).phase := rfl

theorem moveToNextPhase_coinsEarned (settings : TimerSettings) (b : Bool) (s : TimerSession) :
    (moveToNextPhase settings b s).coinsEarned =
      s.coinsEarned + (if s.phase = .focus ∧ b = false then s.timeElapsed / 30 else 0) := rfl

theorem moveToNextPhase_state (settings : TimerSettings) (b : Bool) (s : TimerSession) :
    (moveToNextPhase settings b s).state =
      (if (moveToNextPhase settings b s).phase = .completed then .completed else s.state) := rfl

theorem moveToNextPhase_phase_of_completed (settings : TimerSettings) (b : Bool)
    (s : TimerSession) (h : s.phase = .completed) :
    (moveToNextPhase settings b s).phase = .completed := by
  simp [moveToNextPhase, h]

theorem timeOk_initial (settings : TimerSettings) : TimeOk settings (initialSession settings) := by
  cases h : settings.hasPrep <;>
    simp [TimeOk, initialSession, getCurrentPhaseDuration, h]

theorem timeOk_moveToNextPhase (settings : TimerSettings) (b : Bool) (s : TimerSession) :
    TimeOk settings (moveToNextPhase settings b s) := by
  unfold TimeOk
  rw [moveToNextPhase_timeElapsed, moveToNextPhase_timeRemaining, Nat.zero_add]

theorem timeOk_applyOp (settings : TimerSettings) (s : TimerSession) (op : TimerOp)
    (h : TimeOk settings s) : TimeOk settings (applyOp settings op s) := by
  cases op with
  | start => exact h
  | pause => exact h
  | reset =>
      cases hp : settings.hasPrep <;>
        simp [TimeOk, applyOp, resetTimer, getCurrentPhaseDuration, hp]
  | skip => exact timeOk_moveToNextPhase settings true s
  | tick =>
      show TimeOk settings (tick settings s)
      unfold tick
      split
      · exact h
      · split
        · exact timeOk_moveToNextPhase settings false s
        · rename_i hrem
          unfold TimeOk at h ⊢
          show s.timeElapsed + 1 + (s.timeRemaining - 1) =
            getCurrentPhaseDuration settings s.phase
          omega

/-- C7: in every state reachable from a freshly constructed session by any
sequence of operations (each taken as one atomic step), timeElapsed plus
timeRemaining equals the duration of the current phase, where prep lasts 300
seconds, focus lasts focusDuration, brk lasts breakDuration and completed
lasts 0 (this is getCurrentPhaseDuration). -/
theorem c7_time_partition_invariant (settings : TimerSettings) (ops : List TimerOp) :
    (runOps settings ops (initialSession settings)).timeElapsed +
      (runOps settings ops (initialSession settings)).timeRemaining =
      getCurrentPhaseDuration settings (runOps settings ops (initialSession settings)).phase :=
  runOps_invariant (timeOk_applyOp settings · ·) ops (initialSession settings)
    (timeOk_initial settings)

theorem stateOk_initial (settings : TimerSettings) : StateOk (initialSession settings) := by
  intro h
  simp [initialSession] at h

theorem stateOk_moveToNextPhase (settings : TimerSettings) (b : Bool) (s : TimerSession)
    (hs : StateOk s) : StateOk (moveToNextPhase settings b s) := by
  intro h
  rw [moveToNextPhase_state] at h
  split at h
  · assumption
  · exact absurd (moveToNextPhase_phase_of_completed settings b s (hs h)) (by assumption)

theorem stateOk_applyOp (settings : TimerSettings) (s : TimerSession) (op : TimerOp)
    (h : StateOk s) : StateOk (applyOp settings op s) := by
  cases op with
  | start => intro hc; simp [applyOp, startTimer] at hc
  | pause => intro hc; simp [applyOp, pauseTimer] at hc
  | reset => intro hc; simp [applyOp, resetTimer] at hc
  | skip => exact stateOk_moveToNextPhase settings true s h
  | tick =>
      show StateOk (tick settings s)
      unfold tick
      split
      · exact h
      · split
        · exact stateOk_moveToNextPhase settings false s h
        · intro hc
          exact h hc

/-- C3 counterexample: the invariant phase = Completed ⟺ runState = Completed
fails on a reachable state.  With the minimal configuration, skipPhase
completes the session and a subsequent start() sets the run state back to
running while the phase stays completed. -/
theorem c3_completed_iff_cex :
    (runOps cfgMin [.skip, .start] (initialSession cfgMin)).phase = .completed ∧
      (runOps cfgMin [.skip, .start] (initialSession cfgMin)).state ≠ .completed := by
  decide

/-- C3 amended: in every state reachable from a freshly constructed session,
runState = Completed implies phase = Completed; the converse implication is
false because start() and pause() move the run state away from Completed
while the phase stays Completed. -/
theorem c3_amended_completed_state_implies_phase (settings : TimerSettings)
    (ops : List TimerOp)
    (h : (runOps settings ops (initialSession settings)).state = .completed) :
    (runOps settings ops (initialSession settings)).phase = .completed :=
  runOps_invariant (stateOk_applyOp settings · ·) ops (initialSession settings)
    (stateOk_initial settings) h

theorem c3_amended_witness :
    (runOps cfgMin [.skip] (initialSession cfgMin)).state = .completed ∧
      (runOps cfgMin [.skip] (initialSession cfgMin)).phase = .completed :=
  ⟨by decide, c3_amended_completed_state_implies_phase cfgMin [.skip] (by decide)⟩

theorem loopOk_initial (settings : TimerSettings) (hl : 1 ≤ settings.loops) :
    LoopOk settings (initialSession settings) := by
  constructor
  · intro _
    simpa [initialSession] using hl
  · exact Nat.succ_le_succ (Nat.zero_le _)

theorem loopOk_moveToNextPhase (settings : TimerSettings) (b : Bool) (s : TimerSession)
    (h : LoopOk settings s) : LoopOk settings (moveToNextPhase settings b s) := by
  obtain ⟨h1, h2⟩ := h
  unfold LoopOk
  cases hp : s.phase with
  | prep =>
      have hle := h1 (by simp [hp])
      simp only [moveToNextPhase, hp]
      simp
      omega
  | focus =>
      have hle := h1 (by simp [hp])
      simp only [moveToNextPhase, hp]
      split
      · simp
        omega
      · split <;> (simp; omega)
  | brk =>
      have hle := h1 (by simp [hp])
      simp only [moveToNextPhase, hp]
      split <;> (simp; omega)
  | completed =>
      simp only [moveToNextPhase, hp]
      simp
      omega

theorem loopOk_applyOp (settings : TimerSettings) (hl : 1 ≤ settings.loops)
    (s : TimerSession) (op : TimerOp) (h : LoopOk settings s) :
    LoopOk settings (applyOp settings op s) := by
  cases op with
  | start => exact h
  | pause => exact h
  | reset =>
      constructor
      · intro _
        simpa [applyOp, resetTimer] using hl
      · exact Nat.succ_le_succ (Nat.zero_le _)
  | skip => exact loopOk_moveToNextPhase settings true s h
  | tick =>
      show LoopOk settings (tick settings s)
      unfold tick
      split
      · exact h
      · split
        · exact loopOk_moveToNextPhase settings false s h
        · exact h

theorem currentLoop_le_moveToNextPhase (settings : TimerSettings) (b : Bool)
    (s : TimerSession) :
    s.currentLoop ≤ (moveToNextPhase settings b s).currentLoop := by
  cases hp : s.phase with
  | prep => simp [moveToNextPhase, hp]
  | focus =>
      simp only [moveToNextPhase, hp]
      split
      · simp
      · split <;> simp
  | brk =>
      simp only [moveToNextPhase, hp]
      split <;> simp
  | completed => simp [moveToNextPhase, hp]

theorem currentLoop_le_applyOp (settings : TimerSettings) (s : TimerSession) (op : TimerOp)
    (hop : op ≠ TimerOp.reset) :
    s.currentLoop ≤ (applyOp settings op s).currentLoop := by
  cases op with
  | start => exact Nat.le_refl _
  | pause => exact Nat.le_refl _
  | reset => exact absurd rfl hop
  | skip => exact currentLoop_le_moveToNextPhase settings true s
  | tick =>
      show s.currentLoop ≤ (tick settings s).currentLoop
      unfold tick
      split
      · exact Nat.le_refl _
      · split
        · exact currentLoop_le_moveToNextPhase settings false s
        · exact Nat.le_refl _

/-- C4 counterexample: currentLoop does exceed loopCount on a reachable
state.  With the minimal configuration (1 loop), skipping the only focus
phase completes the session and stores currentLoop = 2 > 1 = loops. -/
theorem c4_loop_bound_cex :
    (runOps cfgMin [.skip] (initialSession cfgMin)).currentLoop = 2 ∧
      cfgMin.loops = 1 ∧
      ¬ (runOps cfgMin [.skip] (initialSession cfgMin)).currentLoop ≤ cfgMin.loops := by
  decide

/-- C4 amended: in every reachable state of a session over a configuration
with loops ≥ 1, currentLoop is at most loops while the phase is not
Completed and at most loops + 1 always (the transition into Completed writes
loops + 1); moreover no operation other than reset decreases currentLoop,
and reset restarts it at 1. -/
theorem c4_amended_loop_invariant (settings : TimerSettings) (hl : 1 ≤ settings.loops)
    (ops : List TimerOp) :
    (((runOps settings ops (initialSession settings)).phase ≠ TimerPhase.completed →
        (runOps settings ops (initialSession settings)).currentLoop ≤ settings.loops) ∧
      (runOps settings ops (initialSession settings)).currentLoop ≤ settings.loops + 1) ∧
    (∀ op, op ≠ TimerOp.reset →
        (runOps settings ops (initialSession settings)).currentLoop ≤
          (applyOp settings op (runOps settings ops (initialSession settings))).currentLoop) ∧
    (applyOp settings TimerOp.reset (runOps settings ops (initialSession settings))).currentLoop
      = 1 :=
  ⟨runOps_invariant (loopOk_applyOp settings hl · ·) ops (initialSession settings)
      (loopOk_initial settings hl),
    fun op hop => currentLoop_le_applyOp settings _ op hop,
    rfl⟩

theorem c4_amended_witness :
    1 ≤ cfgMin.loops ∧
      ((((runOps cfgMin [.start] (initialSession cfgMin)).phase ≠ TimerPhase.completed →
          (runOps cfgMin [.start] (initialSession cfgMin)).currentLoop ≤ cfgMin.loops) ∧
        (runOps cfgMin [.start] (initialSession cfgMin)).currentLoop ≤ cfgMin.loops + 1) ∧
      (∀ op, op ≠ TimerOp.reset →
          (runOps cfgMin [.start] (initialSession cfgMin)).currentLoop ≤
            (applyOp cfgMin op (runOps cfgMin [.start] (initialSession cfgMin))).currentLoop) ∧
      (applyOp cfgMin TimerOp.reset (runOps cfgMin [.start] (initialSession cfgMin))).currentLoop
        = 1) :=
  ⟨by decide, c4_amended_loop_invariant cfgMin (by decide) [.start]⟩

/-- C5 counterexample: start() is not a no-op on a Completed session.  On the
reachable completed session below, startTimer changes the state (runState
becomes Running while the phase stays Completed). -/
theorem c5_start_completed_cex :
    (runOps cfgMin [.skip] (initialSession cfgMin)).state = TimerState.completed ∧
      startTimer (runOps cfgMin [.skip] (initialSession cfgMin)) ≠
        runOps cfgMin [.skip] (initialSession cfgMin) := by
  decide

/-- C5 amended: start() always sets runState to Running and leaves every
other field unchanged; it is a no-op exactly when runState is already
Running.  In particular it is not a no-op on a Completed session: it moves
runState from Completed back to Running. -/
theorem c5_amended_start_frame (s : TimerSession) :
    (startTimer s).state = TimerState.running ∧
    (startTimer s).phase = s.phase ∧
    (startTimer s).currentLoop = s.currentLoop ∧
    (startTimer s).totalLoops = s.totalLoops ∧
    (startTimer s).timeElapsed = s.timeElapsed ∧
    (startTimer s).timeRemaining = s.timeRemaining ∧
    (startTimer s).totalSessionTime = s.totalSessionTime ∧
    (startTimer s).coinsEarned = s.coinsEarned ∧
    (startTimer s).completedFocusTime = s.completedFocusTime ∧
    (startTimer s = s ↔ s.state = TimerState.running) := by
  cases s
  simp [startTimer, TimerSession.mk.injEq, eq_comm]

/-- C6 counterexample: pause() is not a no-op on an Idle session.  The fresh
session is Idle (hence not Running), yet pauseTimer changes it, setting
runState to Paused. -/
theorem c6_pause_idle_cex :
    (initialSession cfgA).state = TimerState.idle ∧
      pauseTimer (initialSession cfgA) ≠ initialSession cfgA := by
  decide

/-- C6 amended: pause() always sets runState to Paused and leaves every
other field unchanged; it is a no-op exactly when runState is already
Paused.  In particular it is not a no-op on Idle or Completed sessions. -/
theorem c6_amended_pause_frame (s : TimerSession) :
    (pauseTimer s).state = TimerState.paused ∧
    (pauseTimer s).phase = s.phase ∧
    (pauseTimer s).currentLoop = s.currentLoop ∧
    (pauseTimer s).totalLoops = s.totalLoops ∧
    (pauseTimer s).timeElapsed = s.timeElapsed ∧
    (pauseTimer s).timeRemaining = s.timeRemaining ∧
    (pauseTimer s).totalSessionTime = s.totalSessionTime ∧
    (pauseTimer s).coinsEarned = s.coinsEarned ∧
    (pauseTimer s).completedFocusTime = s.completedFocusTime ∧
    (pauseTimer s = s ↔ s.state = TimerState.paused) := by
  cases s
  simp [pauseTimer, TimerSession.mk.injEq, eq_comm]

theorem coinsEarned_le_moveToNextPhase (settings : TimerSettings) (b : Bool)
    (s : TimerSession) :
    s.coinsEarned ≤ (moveToNextPhase settings b s).coinsEarned := by
  rw [moveToNextPhase_coinsEarned]
  exact Nat.le_add_right _ _

set_option maxRecDepth 4000 in
/-- C8 counterexample: coinsEarned is not non-decreasing under reset().  With
a 31-second focus and one loop, running the session to completion earns one
coin, and the single operation reset() then drops coinsEarned from 1 to 0. -/
theorem c8_reset_decreases_coins_cex :
    (runOps cfg31 (.start :: List.replicate 31 .tick) (initialSession cfg31)).coinsEarned = 1 ∧
      (applyOp cfg31 TimerOp.reset
          (runOps cfg31 (.start :: List.replicate 31 .tick) (initialSession cfg31))).coinsEarned
        = 0 ∧
      ¬ (runOps cfg31 (.start :: List.replicate 31 .tick) (initialSession cfg31)).coinsEarned ≤
          (applyOp cfg31 TimerOp.reset
            (runOps cfg31 (.start :: List.replicate 31 .tick)
              (initialSession cfg31))).coinsEarned := by
  decide

/-- C8 amended: coinsEarned is non-decreasing under every single operation
except reset: start(), pause(), skipPhase() and tick() never lower it, in any
state; reset() discards the session and restarts coinsEarned at 0. -/
theorem c8_amended_coins_monotone (settings : TimerSettings) (s : TimerSession)
    (op : TimerOp) (hop : op ≠ TimerOp.reset) :
    s.coinsEarned ≤ (applyOp settings op s).coinsEarned ∧
      (applyOp settings TimerOp.reset s).coinsEarned = 0 := by
  refine ⟨?_, rfl⟩
  cases op with
  | start => exact Nat.le_refl _
  | pause => exact Nat.le_refl _
  | reset => exact absurd rfl hop
  | skip => exact coinsEarned_le_moveToNextPhase settings true s
  | tick =>
      show s.coinsEarned ≤ (tick settings s).coinsEarned
      unfold tick
      split
      · exact Nat.le_refl _
      · split
        · exact coinsEarned_le_moveToNextPhase settings false s
        · exact Nat.le_refl _

theorem c8_amended_witness :
    TimerOp.tick ≠ TimerOp.reset ∧
      ((initialSession cfgA).coinsEarned ≤
          (applyOp cfgA TimerOp.tick (initialSession cfgA)).coinsEarned ∧
        (applyOp cfgA TimerOp.reset (initialSession cfgA)).coinsEarned = 0) :=
  ⟨by decide, c8_amended_coins_monotone cfgA (initialSession cfgA) TimerOp.tick (by decide)⟩

set_option maxRecDepth 10000 in
/-- C1: evaluation of Scenario E on the embedded code.  With configuration
focus 150, break 0, 1 loop, no prep, start() followed by 150 ticks completes
the session — but with coinsEarned = 4 and completedFocusTime = 149, not the
claimed 5 and 150: the 150th tick returns the previous state (timeElapsed =
149) and defers moveToNextPhase, so the transition reads the stale elapsed
time.  The claim (and the spec scenario it quotes) describes the intended
behaviour; the repository's own test suite also asserts the full duration
(e.g. completedFocusTime = 150 after a 150-second focus), so the deferred
stale read is a code bug. -/
theorem c1_scenario_e_eval :
    (runOps cfgE (.start :: List.replicate 150 .tick) (initialSession cfgE)).phase
        = TimerPhase.completed ∧
      (runOps cfgE (.start :: List.replicate 150 .tick) (initialSession cfgE)).coinsEarned = 4 ∧
      (runOps cfgE (.start :: List.replicate 150 .tick)
          (initialSession cfgE)).completedFocusTime = 149 ∧
      ¬ ((runOps cfgE (.start :: List.replicate 150 .tick) (initialSession cfgE)).coinsEarned = 5 ∧
          (runOps cfgE (.start :: List.replicate 150 .tick)
            (initialSession cfgE)).completedFocusTime = 150) := by
  decide

/-- C2 counterexample: construction does not fail on an invalid
configuration.  The hook contains no validation and no failure path: with
focusDuration = 0 (< 30) it still produces an engine, the session record
below. -/
theorem c2_construction_never_fails_cex :
    ¬ specValidSettings cfgBad ∧
      initialSession cfgBad =
        { phase := TimerPhase.focus
          state := TimerState.idle
          currentLoop := 1
          totalLoops := 1
          timeElapsed := 0
          timeRemaining := 0
          totalSessionTime := 0
          coinsEarned := 0
          completedFocusTime := 0 } := by
  constructor
  · unfold specValidSettings
    decide
  · decide

/-- C2 amended: construction never fails.  useTimer validates nothing and
produces an Idle session for every configuration, valid or not, identical to
what reset() would produce; the spec's bounds are enforced only by the
settings UI upstream of the engine.  (No engine operation has an error path
either: every operation embedded in this file is a total function.) -/
theorem c2_amended_construction_total (settings : TimerSettings) :
    (initialSession settings).state = TimerState.idle ∧
      (initialSession settings).phase =
        (if settings.hasPrep then TimerPhase.prep else TimerPhase.focus) ∧
      (initialSession settings).coinsEarned = 0 ∧
      (initialSession settings).completedFocusTime = 0 ∧
      initialSession settings = resetTimer settings :=
  ⟨rfl, rfl, rfl, rfl, rfl⟩

theorem moveToNextPhase_ne (settings : TimerSettings) (b : Bool) (s : TimerSession)
    (hphase : s.phase ≠ TimerPhase.completed) :
    moveToNextPhase settings b s ≠ s := by
  intro heq
  have hph := congrArg TimerSession.phase heq
  have hcl := congrArg TimerSession.currentLoop heq
  cases hp : s.phase with
  | prep => simp [moveToNextPhase, hp] at hph
  | focus =>
      by_cases hbd : settings.breakDuration > 0
      · simp [moveToNextPhase, hp, hbd] at hph
      · by_cases hll : s.currentLoop + 1 ≤ settings.loops
        · simp [moveToNextPhase, hp, hbd, hll] at hcl
        · simp [moveToNextPhase, hp, hbd, hll] at hph
  | brk =>
      by_cases hll : s.currentLoop + 1 ≤ settings.loops
      · simp [moveToNextPhase, hp, hll] at hph
      · simp [moveToNextPhase, hp, hll] at hph
  | completed => exact hphase hp

/-- C10: when runState is Idle or Paused and the phase is not Completed,
skipPhase() is not a no-op: the hook calls moveToNextPhase(true) with no
run-state guard.  It resets timeElapsed to 0, awards no coins, adds the
accumulated timeElapsed to completedFocusTime exactly when the phase is
Focus, and moves to the next phase per the transition table. -/
theorem c10_skipPhase_not_noop (settings : TimerSettings) (s : TimerSession)
    (_hstate : s.state = TimerState.idle ∨ s.state = TimerState.paused)
    (hphase : s.phase ≠ TimerPhase.completed) :
    skipPhase settings s ≠ s ∧
    skipPhase settings s = moveToNextPhase settings true s ∧
    (skipPhase settings s).timeElapsed = 0 ∧
    (skipPhase settings s).coinsEarned = s.coinsEarned ∧
    (skipPhase settings s).completedFocusTime =
      s.completedFocusTime + (if s.phase = TimerPhase.focus then s.timeElapsed else 0) ∧
    (skipPhase settings s).phase =
      (match s.phase with
        | TimerPhase.prep => TimerPhase.focus
        | TimerPhase.focus =>
            if settings.breakDuration > 0 then TimerPhase.brk
            else if s.currentLoop < settings.loops then TimerPhase.focus
            else TimerPhase.completed
        | TimerPhase.brk =>
            if s.currentLoop < settings.loops then TimerPhase.focus
            else TimerPhase.completed
        | TimerPhase.completed => TimerPhase.completed) := by
  refine ⟨moveToNextPhase_ne settings true s hphase, rfl, rfl, ?_, ?_, ?_⟩
  · simpa using moveToNextPhase_coinsEarned settings true s
  · by_cases hf : s.phase = TimerPhase.focus <;>
      simp [skipPhase, moveToNextPhase, hf]
  · cases hp : s.phase with
    | prep => simp [skipPhase, moveToNextPhase, hp]
    | focus =>
        by_cases hbd : settings.breakDuration > 0
        · simp [skipPhase, moveToNextPhase, hp, hbd]
        · by_cases hll : s.currentLoop + 1 ≤ settings.loops
          · simp [skipPhase, moveToNextPhase, hp, hbd, hll, Nat.lt_iff_add_one_le]
          · simp [skipPhase, moveToNextPhase, hp, hbd, hll, Nat.lt_iff_add_one_le]
    | brk =>
        by_cases hll : s.currentLoop + 1 ≤ settings.loops
        · simp [skipPhase, moveToNextPhase, hp, hll, Nat.lt_iff_add_one_le]
        · simp [skipPhase, moveToNextPhase, hp, hll, Nat.lt_iff_add_one_le]
    | completed => exact absurd hp hphase

theorem c10_witness :
    ((initialSession cfgA).state = TimerState.idle ∨
        (initialSession cfgA).state = TimerState.paused) ∧
      (initialSession cfgA).phase ≠ TimerPhase.completed ∧
      (skipPhase cfgA (initialSession cfgA) ≠ initialSession cfgA ∧
        skipPhase cfgA (initialSession cfgA) =
          moveToNextPhase cfgA true (initialSession cfgA) ∧
        (skipPhase cfgA (initialSession cfgA)).timeElapsed = 0 ∧
        (skipPhase cfgA (initialSession cfgA)).coinsEarned =
          (initialSession cfgA).coinsEarned ∧
        (skipPhase cfgA (initialSession cfgA)).completedFocusTime =
          (initialSession cfgA).completedFocusTime +
            (if (initialSession cfgA).phase = TimerPhase.focus
              then (initialSession cfgA).timeElapsed else 0) ∧
        (skipPhase cfgA (initialSession cfgA)).phase =
          (match (initialSession cfgA).phase with
            | TimerPhase.prep => TimerPhase.focus
            | TimerPhase.focus =>
                if cfgA.breakDuration > 0 then TimerPhase.brk
                else if (initialSession cfgA).currentLoop < cfgA.loops then TimerPhase.focus
                else TimerPhase.completed
            | TimerPhase.brk =>
                if (initialSession cfgA).currentLoop < cfgA.loops then TimerPhase.focus
                else TimerPhase.completed
            | TimerPhase.completed => TimerPhase.completed)) :=
  ⟨Or.inl (by decide), by decide,
    c10_skipPhase_not_noop cfgA (initialSession cfgA) (Or.inl (by decide)) (by decide)⟩

theorem length_le_toDigitsCore (b : Nat) :
    ∀ (fuel n : Nat) (l : List Char), l.length ≤ (Nat.toDigitsCore b fuel n l).length := by
  intro fuel
  induction fuel with
  | zero => intro n l; exact Nat.le_refl _
  | succ f ih =>
      intro n l
      simp only [Nat.toDigitsCore]
      split
      · simp
      · have h := ih (n / b) (Nat.digitChar (n % b) :: l)
        simp at h
        omega

theorem length_lt_toDigitsCore (b fuel n : Nat) (l : List Char) (hf : 0 < fuel) :
    l.length + 1 ≤ (Nat.toDigitsCore b fuel n l).length := by
  cases fuel with
  | zero => exact absurd hf (by simp)
  | succ f =>
      simp only [Nat.toDigitsCore]
      split
      · simp
      · have h := length_le_toDigitsCore b f (n / b) (Nat.digitChar (n % b) :: l)
        simp at h
        omega

theorem two_le_repr_length (n : Nat) (h : 10 ≤ n) : 2 ≤ (Nat.repr n).length := by
  have hdiv : n / 10 ≠ 0 := by
    have h1 : 1 ≤ n / 10 := (Nat.one_le_div_iff (by decide)).mpr h
    omega
  show 2 ≤ (Nat.toDigits 10 n).length
  unfold Nat.toDigits
  cases n with
  | zero => exact absurd h (by decide)
  | succ m =>
      simp only [Nat.toDigitsCore, hdiv, if_false]
      have hkey := length_lt_toDigitsCore 10 (m + 1) ((m + 1) / 10)
        [Nat.digitChar ((m + 1) % 10)] (by omega)
      simpa using hkey

theorem repr_length_of_lt_ten (n : Nat) (h : n < 10) : (Nat.repr n).length = 1 := by
  interval_cases n <;> decide

theorem string_mk_nil_append (s : String) : String.mk [] ++ s = s := by
  cases s
  rfl

theorem padStart2_repr (n : Nat) : padStart2 (Nat.repr n) = pad2 n := by
  by_cases h : n < 10
  · have hl := repr_length_of_lt_ten n h
    rw [padStart2, pad2, hl, if_pos h]
    rfl
  · have hge : 10 ≤ n := Nat.le_of_not_lt h
    have hl := two_le_repr_length n hge
    rw [padStart2, pad2, if_neg h, Nat.sub_eq_zero_of_le hl, List.replicate_zero,
      string_mk_nil_append]

/-- C9: formatTime renders MM:SS with two-digit zero padding on both
components; the minutes component Math.floor(s / 60) is not wrapped at 60,
so formatTime 3661 is the string with minutes 61, and formatTime 0 pads both
components to 00. -/
theorem c9_formatTime_spec :
    (∀ s : Nat, formatTime s = pad2 (s / 60) ++ ":" ++ pad2 (s % 60)) ∧
      formatTime 3661 = "61:01" ∧ formatTime 0 = "00:00" := by
  refine ⟨fun s => ?_, by decide, by decide⟩
  show padStart2 (Nat.repr (s / 60)) ++ ":" ++ padStart2 (Nat.repr (s % 60)) =
    pad2 (s / 60) ++ ":" ++ pad2 (s % 60)
  rw [padStart2_repr, padStart2_repr]
